/-
Verification of the Heal-Connect therapy portal's access-control and
audit-trail layer against its natural-language specification.

The definitions below are a shallow embedding of the server code:
  * `src/shared/schema.ts`  — role hierarchy and table shapes
  * `src/unnamed/part_002`  — `DatabaseStorage` (the storage revision that
    includes the HIPAA audit/session methods)
  * `src/server/routes.ts`  — route handlers and middleware

The database is a record of lists (one per table).  Row timestamps that the
code never branches on (journal dates, plan createdAt, ...) are omitted, and
`orderBy` clauses are not modelled: retrieval keeps insertion order, which is
irrelevant to every property proved here.  Request network context
(ip address, user agent) is likewise omitted from audit entries.  Time is
modelled in integer milliseconds; each floating-point comparison or rounding
the code performs on a minutes value is restated as the exactly equivalent
integer comparison on milliseconds, with the equivalence noted at the
definition.
-/
import Mathlib

namespace HealConnect

/-- A row of the `users` table (id, role). -/
structure User where
  id : String
  role : String
deriving DecidableEq, Repr

/-- A row of the `journals` table. -/
structure Journal where
  id : Nat
  userId : String
  content : String
  isShared : Bool
deriving DecidableEq, Repr

/-- A row of the `prompts` table.  `clientId = none` means global. -/
structure Prompt where
  id : Nat
  content : String
  isActive : Bool
  clientId : Option String
deriving DecidableEq, Repr

/-- A row of the `homework` table. -/
structure Homework where
  id : Nat
  userId : String
  title : String
  status : String
deriving DecidableEq, Repr

/-- A row of the `treatment_plans` table. -/
structure TreatmentPlan where
  id : Nat
  clientId : String
deriving DecidableEq, Repr

/-- A row of the `treatment_goals` table. -/
structure TreatmentGoal where
  id : Nat
  planId : Nat
  title : String
deriving DecidableEq, Repr

/-- A row of the `treatment_objectives` table. -/
structure TreatmentObjective where
  id : Nat
  goalId : Nat
  title : String
deriving DecidableEq, Repr

/-- A row of the `treatment_progress` table. -/
structure TreatmentProgressNote where
  id : Nat
  objectiveId : Nat
  note : String
deriving DecidableEq, Repr

/-- A row of the `audit_logs` table (network-context columns omitted). -/
structure AuditLog where
  userId : String
  action : String
  resourceType : String
  resourceId : Option String
  targetUserId : Option String
  createdAt : Int
deriving DecidableEq, Repr

/-- A row of the `session_activity` table; `lastActivity` in ms. -/
structure SessionActivityRow where
  sessionId : String
  userId : String
  lastActivity : Int
deriving DecidableEq, Repr

/-- The whole store: one list per table, in insertion order. -/
structure DB where
  users : List User
  journals : List Journal
  prompts : List Prompt
  homework : List Homework
  plans : List TreatmentPlan
  goals : List TreatmentGoal
  objectives : List TreatmentObjective
  progress : List TreatmentProgressNote
  auditLogs : List AuditLog
  sessionActivity : List SessionActivityRow
deriving DecidableEq, Repr

/-! ### Storage layer (`DatabaseStorage`, src/unnamed/part_002) -/

/-- `getUser`: first row with the given id. -/
def getUser (db : DB) (id : String) : Option User :=
  db.users.find? (fun u => u.id == id)

/-- `getSharedJournals`: journals of `clientId` flagged shared. -/
def getSharedJournals (db : DB) (clientId : String) : List Journal :=
  db.journals.filter (fun j => j.userId == clientId && j.isShared)

/-- `getPrompts`: all active prompts.  The implementation takes no client
parameter, so call sites that pass one have the argument silently ignored. -/
def getPrompts (db : DB) : List Prompt :=
  db.prompts.filter (fun p => p.isActive)

/-- `getAllTreatmentPlans`. -/
def getAllTreatmentPlans (db : DB) : List TreatmentPlan :=
  db.plans

/-- `getTreatmentPlan`: first plan owned by `clientId`. -/
def getTreatmentPlan (db : DB) (clientId : String) : Option TreatmentPlan :=
  db.plans.find? (fun p => p.clientId == clientId)

/-- `getGoals`: goals of a plan. -/
def getGoals (db : DB) (planId : Nat) : List TreatmentGoal :=
  db.goals.filter (fun g => g.planId == planId)

/-- `getObjectives`: objectives of a goal. -/
def getObjectives (db : DB) (goalId : Nat) : List TreatmentObjective :=
  db.objectives.filter (fun o => o.goalId == goalId)

/-- `getProgress`: progress notes of an objective. -/
def getProgress (db : DB) (objectiveId : Nat) : List TreatmentProgressNote :=
  db.progress.filter (fun p => p.objectiveId == objectiveId)

/-- `createAuditLog`: append a row to `audit_logs`. -/
def createAuditLog (db : DB) (log : AuditLog) : DB :=
  { db with auditLogs := db.auditLogs ++ [log] }

/-- JavaScript string truthiness for an optional string argument:
`undefined` and the empty string are falsy. -/
def strTruthy (s : Option String) : Option String :=
  match s with
  | some v => if v = "" then none else some v
  | none => none

/-- `getAuditLogs(userId?, startDate?)`: branches on the *truthiness* of its
arguments; filters on the actor column `userId` (and `createdAt >= startDate`),
never on `targetUserId`.  The no-filter branch is capped at 1000 rows. -/
def getAuditLogs (db : DB) (userId : Option String) (startDate : Option Int) :
    List AuditLog :=
  match strTruthy userId, startDate with
  | some u, some s =>
      db.auditLogs.filter (fun l => l.userId == u && decide (s ≤ l.createdAt))
  | some u, none =>
      db.auditLogs.filter (fun l => l.userId == u)
  | none, some s =>
      db.auditLogs.filter (fun l => decide (s ≤ l.createdAt))
  | none, none => db.auditLogs.take 1000

/-- `getClientDataAccessLogs`: filters on the data-subject column
`targetUserId`. -/
def getClientDataAccessLogs (db : DB) (clientId : String) : List AuditLog :=
  db.auditLogs.filter (fun l => l.targetUserId == some clientId)

/-- `getSessionActivity`: first row for the session id. -/
def getSessionActivity (db : DB) (sessionId : String) :
    Option SessionActivityRow :=
  db.sessionActivity.find? (fun a => a.sessionId == sessionId)

/-- `updateSessionActivity`: set `lastActivity := now` on the existing row,
or insert a fresh row when none exists. -/
def updateSessionActivity (db : DB) (sessionId userId : String) (now : Int) :
    DB :=
  match getSessionActivity db sessionId with
  | some _ =>
      { db with sessionActivity :=
          db.sessionActivity.map (fun a =>
            if a.sessionId == sessionId then { a with lastActivity := now }
            else a) }
  | none =>
      { db with sessionActivity :=
          db.sessionActivity ++
            [{ sessionId := sessionId, userId := userId,
               lastActivity := now }] }

/-- A partial homework update (`Partial<InsertHomework>`). -/
structure HomeworkUpdate where
  userId : Option String
  title : Option String
  status : Option String
deriving DecidableEq, Repr

/-- Apply a partial update to a homework row (`set(updates)`). -/
def applyHomeworkUpdate (upd : HomeworkUpdate) (h : Homework) : Homework :=
  { h with
    userId := upd.userId.getD h.userId
    title := upd.title.getD h.title
    status := upd.status.getD h.status }

/-- `updateHomework`: update rows matching the id; `.returning()` yields the
updated row (or nothing when the id is absent). -/
def updateHomework (db : DB) (i : Nat) (upd : HomeworkUpdate) :
    Option Homework × DB :=
  ((db.homework.find? (fun h => h.id == i)).map (applyHomeworkUpdate upd),
   { db with homework :=
       db.homework.map (fun h =>
         if h.id == i then applyHomeworkUpdate upd h else h) })

/-- The fields of `insertHomeworkSchema` (dueDate omitted; status defaults to
`pending` as in the table definition). -/
structure InsertHomework where
  userId : String
  title : String
  status : Option String
deriving DecidableEq, Repr

/-- Serial id assignment for a homework insert. -/
def nextHomeworkId (db : DB) : Nat :=
  (db.homework.map (fun h => h.id)).foldr max 0 + 1

/-- `createHomework`: insert a row with a fresh serial id. -/
def createHomework (db : DB) (ins : InsertHomework) : Homework × DB :=
  let hw : Homework :=
    { id := nextHomeworkId db, userId := ins.userId, title := ins.title,
      status := ins.status.getD "pending" }
  (hw, { db with homework := db.homework ++ [hw] })

/-- `deleteHomework`. -/
def deleteHomework (db : DB) (i : Nat) : DB :=
  { db with homework := db.homework.filter (fun h => h.id != i) }

/-! ### Role hierarchy (`src/shared/schema.ts`) -/

/-- The keys of `ROLE_HIERARCHY` (the `UserRole` union type). -/
inductive UserRole where
  | therapist
  | office_admin
  | client
deriving DecidableEq, Repr

/-- `ROLE_HIERARCHY[requiredRole]`. -/
def UserRole.level : UserRole → Nat
  | .therapist => 3
  | .office_admin => 2
  | .client => 1

/-- The role string each `UserRole` key denotes. -/
def UserRole.toStr : UserRole → String
  | .therapist => "therapist"
  | .office_admin => "office_admin"
  | .client => "client"

/-- `ROLE_HIERARCHY[userRole as UserRole] || 0`: 3/2/1 for the three known
role strings, 0 for anything else. -/
def roleLevel (role : String) : Nat :=
  if role = "therapist" then 3
  else if role = "office_admin" then 2
  else if role = "client" then 1
  else 0

/-- `hasRolePermission(userRole, requiredRole)`. -/
def hasRolePermission (userRole : String) (requiredRole : UserRole) : Bool :=
  decide (requiredRole.level ≤ roleLevel userRole)

/-- `isTherapistRole`. -/
def isTherapistRole (role : String) : Bool :=
  role == "therapist"

/-- `isOfficeAdminRole`. -/
def isOfficeAdminRole (role : String) : Bool :=
  role == "office_admin" || role == "therapist"

/-- Modelled from the spec: the rank function of §4.2/§8, written from the
spec's words — rank(therapist)=3, rank(office_admin)=2, rank(client)=1, and
rank of any other string 0 — to be compared with the source's `roleLevel`. -/
def rankSpec (r : String) : Nat :=
  if r = "therapist" then 3
  else if r = "office_admin" then 2
  else if r = "client" then 1
  else 0

/-! ### Request layer (`src/server/routes.ts`)

A handler's caller is `auth : Option String`: the user id `getUserId`
extracts from an authenticated session, or `none` when there is no session.
(`getUserId` returns `req.user?.claims?.sub || null`, so an authenticated id
is never the empty string.)  Each handler returns its response paired with
the store after the request. -/

/-- `getUserRole`: the caller's stored role, with `user?.role || "client"`
JavaScript falsiness — a missing user, a missing principal, or an empty role
string all yield `client`. -/
def getUserRole (db : DB) (auth : Option String) : String :=
  match auth with
  | none => "client"
  | some uid =>
      match getUser db uid with
      | none => "client"
      | some u => if u.role = "" then "client" else u.role

/-- The outcome of a route: a JSON payload, a 403, or a 401. -/
inductive ApiResponse (α : Type) where
  | ok : α → ApiResponse α
  | forbidden : String → ApiResponse α
  | unauthorized : ApiResponse α
deriving DecidableEq, Repr

/-- Per-request audit context: the timestamp the store assigns to a new audit
row, and whether the underlying `createAuditLog` insert succeeds.  A failed
insert is caught inside `createAuditEntry` and never escapes. -/
structure AuditCtx where
  createdAt : Int
  writeOk : Bool
deriving DecidableEq, Repr

/-- `x || null` applied to the optional string arguments of
`createAuditEntry`: `undefined` and `""` both become null. -/
def orNull (s : Option String) : Option String :=
  match s with
  | some v => if v = "" then none else some v
  | none => none

/-- The audit row `createAuditEntry` builds from its arguments. -/
def mkAuditEntry (ctx : AuditCtx) (userId action resourceType : String)
    (resourceId targetUserId : Option String) : AuditLog :=
  { userId := userId, action := action, resourceType := resourceType,
    resourceId := orNull resourceId, targetUserId := orNull targetUserId,
    createdAt := ctx.createdAt }

/-- `createAuditEntry` (routes.ts): append the audit row; a storage failure
is caught and logged locally, leaving the store unchanged. -/
def createAuditEntry (ctx : AuditCtx) (userId action resourceType : String)
    (resourceId targetUserId : Option String) (db : DB) : DB :=
  if ctx.writeOk then
    createAuditLog db
      (mkAuditEntry ctx userId action resourceType resourceId targetUserId)
  else db

/-- `SESSION_TIMEOUT_MINUTES = 30`. -/
def SESSION_TIMEOUT_MINUTES : Int := 30

/-- `(now.getTime() - lastActivity.getTime()) / (1000 * 60) >
SESSION_TIMEOUT_MINUTES`: for an integer millisecond difference `d` the
floating-point comparison `d / 60000 > 30` holds exactly when
`d > 30 * 60000`, which is how it is stated here. -/
def pastTimeout (lastActivity now : Int) : Bool :=
  decide (SESSION_TIMEOUT_MINUTES * 60000 < now - lastActivity)

/-- `Math.round(a / b)` for integer `a ≥ 0`, `b > 0`:
`⌊a/b + 1/2⌋ = (2*a + b) / (2*b)` with integer floor division. -/
def jsRoundDiv (a b : Int) : Int :=
  (2 * a + b) / (2 * b)

/-- Outcome of the session-activity middleware. -/
inductive SessionCheck where
  | proceed
  | expired
deriving DecidableEq, Repr

/-- The session activity tracking middleware: for an authenticated request
with a session id, a last-activity row older than the timeout produces a
`session_timeout` audit entry and a 401 without touching the activity row;
otherwise the row is refreshed (or created) and the request proceeds. -/
def sessionMiddleware (ctx : AuditCtx) (db : DB) (auth : Option String)
    (sessionId : Option String) (now : Int) : SessionCheck × DB :=
  match auth, sessionId with
  | some uid, some sid =>
      match getSessionActivity db sid with
      | some activity =>
          if pastTimeout activity.lastActivity now then
            (.expired,
             createAuditEntry ctx uid "session_timeout" "session" (some sid)
               none db)
          else
            (.proceed, updateSessionActivity db sid uid now)
      | none => (.proceed, updateSessionActivity db sid uid now)
  | _, _ => (.proceed, db)

/-- `GET /api/journals/client/:clientId` (therapist only): audit the access,
then return the client's shared journals. -/
def journalsClientGet (ctx : AuditCtx) (db : DB) (auth : Option String)
    (clientId : String) : ApiResponse (List Journal) × DB :=
  match auth with
  | none => (.unauthorized, db)
  | some uid =>
      if !isTherapistRole (getUserRole db auth) then
        (.forbidden "Therapist access required", db)
      else
        let db1 := createAuditEntry ctx uid "view" "journal" none
          (some clientId) db
        (.ok (getSharedJournals db1 clientId), db1)

/-- `GET /api/prompts`: therapists call `storage.getPrompts()`, everyone else
calls `storage.getPrompts(userId!)` — but the storage implementation declares
no parameter, so the argument is ignored and both branches run the same
query. -/
def promptsGet (db : DB) (auth : Option String) :
    ApiResponse (List Prompt) × DB :=
  match auth with
  | none => (.unauthorized, db)
  | some _uid =>
      let prompts :=
        if isTherapistRole (getUserRole db auth) then getPrompts db
        else getPrompts db
      (.ok prompts, db)

/-- `POST /api/homework` (office admin or higher). -/
def homeworkPost (db : DB) (auth : Option String) (ins : InsertHomework) :
    ApiResponse Homework × DB :=
  match auth with
  | none => (.unauthorized, db)
  | some _uid =>
      if !isOfficeAdminRole (getUserRole db auth) then
        (.forbidden "Admin access required", db)
      else
        let r := createHomework db ins
        (.ok r.1, r.2)

/-- `PATCH /api/homework/:id`: only `isAuthenticated` guards this route — no
role requirement and no ownership check on the targeted row. -/
def homeworkPatch (db : DB) (auth : Option String) (i : Nat)
    (upd : HomeworkUpdate) : ApiResponse (Option Homework) × DB :=
  match auth with
  | none => (.unauthorized, db)
  | some _uid =>
      let r := updateHomework db i upd
      (.ok r.1, r.2)

/-- `DELETE /api/homework/:id` (office admin or higher). -/
def homeworkDelete (db : DB) (auth : Option String) (i : Nat) :
    ApiResponse Unit × DB :=
  match auth with
  | none => (.unauthorized, db)
  | some _uid =>
      if !isOfficeAdminRole (getUserRole db auth) then
        (.forbidden "Admin access required", db)
      else
        (.ok (), deleteHomework db i)

/-- `GET /api/treatment-plans`: a therapist gets every plan after a
`view_all` audit entry with no target user; anyone else gets their own plan
(as a singleton list) after a self-targeted `view` entry. -/
def treatmentPlansList (ctx : AuditCtx) (db : DB) (auth : Option String) :
    ApiResponse (List TreatmentPlan) × DB :=
  match auth with
  | none => (.unauthorized, db)
  | some uid =>
      if isTherapistRole (getUserRole db auth) then
        let db1 := createAuditEntry ctx uid "view_all" "treatment_plan" none
          none db
        (.ok (getAllTreatmentPlans db1), db1)
      else
        let db1 := createAuditEntry ctx uid "view" "treatment_plan" none
          (some uid) db
        match getTreatmentPlan db1 uid with
        | some plan => (.ok [plan], db1)
        | none => (.ok [], db1)

/-- `GET /api/treatment-plans/:clientId`: non-therapists may only name
themselves; a therapist reading someone else's plan is audited. -/
def treatmentPlanByClient (ctx : AuditCtx) (db : DB) (auth : Option String)
    (clientId : String) : ApiResponse (Option TreatmentPlan) × DB :=
  match auth with
  | none => (.unauthorized, db)
  | some uid =>
      let role := getUserRole db auth
      if !isTherapistRole role && uid ≠ clientId then
        (.forbidden "Access denied", db)
      else
        let db1 :=
          if isTherapistRole role && uid ≠ clientId then
            createAuditEntry ctx uid "view" "treatment_plan" none
              (some clientId) db
          else db
        (.ok (getTreatmentPlan db1 clientId), db1)

/-- `verifyPlanAccess`: therapists always; otherwise the plan with the given
id must exist and belong to the caller. -/
def verifyPlanAccess (db : DB) (auth : Option String) (planId : Nat) : Bool :=
  if isTherapistRole (getUserRole db auth) then true
  else
    match (getAllTreatmentPlans db).find? (fun p => p.id == planId) with
    | some plan => auth == some plan.clientId
    | none => false

/-- `GET /api/treatment-goals/:planId`: deny unless `verifyPlanAccess`; a
therapist read of an existing plan's goals is audited against the plan's
owner. -/
def treatmentGoalsGet (ctx : AuditCtx) (db : DB) (auth : Option String)
    (planId : Nat) : ApiResponse (List TreatmentGoal) × DB :=
  match auth with
  | none => (.unauthorized, db)
  | some uid =>
      let role := getUserRole db auth
      if !verifyPlanAccess db auth planId then
        (.forbidden "Access denied", db)
      else
        let db1 :=
          match (getAllTreatmentPlans db).find? (fun p => p.id == planId) with
          | some plan =>
              if isTherapistRole role then
                createAuditEntry ctx uid "view" "treatment_goals"
                  (some (toString planId)) (some plan.clientId) db
              else db
          | none => db
        (.ok (getGoals db1 planId), db1)

/-- `GET /api/treatment-objectives/:goalId`: a non-therapist must own a plan
whose goal list contains the goal id; a therapist read is audited against
the owner of the first plan whose goals contain the goal id (the loop breaks
after the first hit). -/
def treatmentObjectivesGet (ctx : AuditCtx) (db : DB) (auth : Option String)
    (goalId : Nat) : ApiResponse (List TreatmentObjective) × DB :=
  match auth with
  | none => (.unauthorized, db)
  | some uid =>
      if !isTherapistRole (getUserRole db auth) then
        match (getAllTreatmentPlans db).find? (fun p => p.clientId == uid) with
        | none => (.forbidden "Access denied", db)
        | some clientPlan =>
            if !((getGoals db clientPlan.id).any (fun g => g.id == goalId))
            then (.forbidden "Access denied", db)
            else (.ok (getObjectives db goalId), db)
      else
        let db1 :=
          match (getAllTreatmentPlans db).find? (fun p =>
              (getGoals db p.id).any (fun g => g.id == goalId)) with
          | some p =>
              createAuditEntry ctx uid "view" "treatment_objectives"
                (some (toString goalId)) (some p.clientId) db
          | none => db
        (.ok (getObjectives db1 goalId), db1)

/-- The objective → goal → plan scan of `GET /api/treatment-progress`: walk
the plans in order and keep the client id of a plan owning the objective.
The loop's exit test `if (targetClientId) break` treats an empty client id as
falsy, so after recording `""` the scan keeps going and a later match can
replace it. -/
def deriveProgressClient (db : DB) (objectiveId : Nat) :
    List TreatmentPlan → Option String
  | [] => none
  | p :: ps =>
      if (getGoals db p.id).any (fun g =>
          (getObjectives db g.id).any (fun o => o.id == objectiveId)) then
        if p.clientId = "" then
          match deriveProgressClient db objectiveId ps with
          | some c => some c
          | none => some ""
        else some p.clientId
      else deriveProgressClient db objectiveId ps

/-- `GET /api/treatment-progress/:objectiveId` (therapist only): derive the
data subject through the objective → goal → plan chain, audit, then return
the notes. -/
def treatmentProgressGet (ctx : AuditCtx) (db : DB) (auth : Option String)
    (objectiveId : Nat) : ApiResponse (List TreatmentProgressNote) × DB :=
  match auth with
  | none => (.unauthorized, db)
  | some uid =>
      if !isTherapistRole (getUserRole db auth) then
        (.forbidden "Therapist access required", db)
      else
        let target := deriveProgressClient db objectiveId
          (getAllTreatmentPlans db)
        let db1 := createAuditEntry ctx uid "view" "treatment_progress"
          (some (toString objectiveId)) target db
        (.ok (getProgress db1 objectiveId), db1)

/-- `GET /api/audit-logs` (therapist only): audit the audit read itself, then
pass the `targetUserId` query parameter as `getAuditLogs`'s *actor* filter. -/
def auditLogsGet (ctx : AuditCtx) (db : DB) (auth : Option String)
    (targetUserId : Option String) (startDate : Option Int) :
    ApiResponse (List AuditLog) × DB :=
  match auth with
  | none => (.unauthorized, db)
  | some uid =>
      if !isTherapistRole (getUserRole db auth) then
        (.forbidden "Therapist access required", db)
      else
        let db1 := createAuditEntry ctx uid "view" "audit_logs" none
          targetUserId db
        (.ok (getAuditLogs db1 targetUserId startDate), db1)

/-- The JSON body of `GET /api/session-status`.  `timeoutMinutes` is optional
because the branch taken when no activity row exists omits the field. -/
structure SessionStatusResponse where
  valid : Bool
  remainingMinutes : Int
  timeoutMinutes : Option Int
deriving DecidableEq, Repr

/-- `GET /api/session-status`: with no activity row the handler answers
`{valid: true, remainingMinutes: 30}` (no `timeoutMinutes`); with a row it
reports validity and the rounded remaining minutes together with the
timeout. -/
def sessionStatusGet (db : DB) (auth : Option String)
    (sessionId : Option String) (now : Int) :
    ApiResponse SessionStatusResponse × DB :=
  match auth, sessionId with
  | some _uid, some sid =>
      match getSessionActivity db sid with
      | none =>
          (.ok { valid := true, remainingMinutes := SESSION_TIMEOUT_MINUTES,
                 timeoutMinutes := none }, db)
      | some activity =>
          -- `remainingMinutes = Math.max(0, 30 - d/60000)` in minutes is
          -- tracked here in milliseconds; `valid` compares it with 0 before
          -- rounding, exactly as the handler does.
          let remainingMs : Int :=
            max 0 (SESSION_TIMEOUT_MINUTES * 60000 -
              (now - activity.lastActivity))
          (.ok { valid := decide (remainingMs > 0),
                 remainingMinutes := jsRoundDiv remainingMs 60000,
                 timeoutMinutes := some SESSION_TIMEOUT_MINUTES }, db)
  | _, _ => (.unauthorized, db)

/-! ### Concrete sample store used by witnesses and counterexamples -/

/-- A small store: two clients (`c1`, `c2`) each with a plan, a goal and an
objective, a therapist `t1`, an office admin `a1`, shared and private
journals, a global and a client-scoped prompt, one homework row owned by
`c2`, and one live session `s1` for `c1` with last activity at time 0. -/
def sampleDB : DB :=
  { users := [⟨"c1", "client"⟩, ⟨"c2", "client"⟩, ⟨"t1", "therapist"⟩,
              ⟨"a1", "office_admin"⟩],
    journals := [⟨1, "c1", "shared entry", true⟩,
                 ⟨2, "c1", "private entry", false⟩,
                 ⟨3, "c2", "other entry", true⟩],
    prompts := [⟨1, "global prompt", true, none⟩,
                ⟨2, "scoped to c2", true, some "c2"⟩,
                ⟨3, "inactive", false, none⟩],
    homework := [⟨1, "c2", "task", "pending"⟩],
    plans := [⟨1, "c1"⟩, ⟨2, "c2"⟩],
    goals := [⟨10, 1, "goal of c1"⟩, ⟨20, 2, "goal of c2"⟩],
    objectives := [⟨100, 10, "objective of c1"⟩, ⟨200, 20, "objective of c2"⟩],
    progress := [⟨1000, 100, "note"⟩],
    auditLogs := [],
    sessionActivity := [⟨"s1", "c1", 0⟩] }

/-- An audit context whose store write succeeds, stamping time 7. -/
def sampleCtx : AuditCtx := ⟨7, true⟩

/-- Two stores agree on every table except `audit_logs`. -/
def sameExceptAudit (d1 d2 : DB) : Prop :=
  d1.users = d2.users ∧ d1.journals = d2.journals ∧
  d1.prompts = d2.prompts ∧ d1.homework = d2.homework ∧
  d1.plans = d2.plans ∧ d1.goals = d2.goals ∧
  d1.objectives = d2.objectives ∧ d1.progress = d2.progress ∧
  d1.sessionActivity = d2.sessionActivity

/-- An operation parameterised by the audit context is unharmed by an
audit-write failure: at any entry timestamp, the run whose audit insert
fails returns the same response as the run whose insert succeeds, its
final store differs from the successful run's only in `audit_logs`, and
its own audit table is exactly the pre-request one. -/
def auditFailSafe {β : Type} (db : DB) (run : AuditCtx → β × DB) : Prop :=
  ∀ t : Int,
    (run ⟨t, false⟩).1 = (run ⟨t, true⟩).1 ∧
    sameExceptAudit (run ⟨t, false⟩).2 (run ⟨t, true⟩).2 ∧
    (run ⟨t, false⟩).2.auditLogs = db.auditLogs

/-! ### Helper lemmas: audit writes touch only the audit table -/

@[simp] theorem createAuditEntry_users (ctx : AuditCtx) (u a rt : String)
    (rid tid : Option String) (db : DB) :
    (createAuditEntry ctx u a rt rid tid db).users = db.users := by
  unfold createAuditEntry createAuditLog
  split <;> rfl

@[simp] theorem createAuditEntry_journals (ctx : AuditCtx) (u a rt : String)
    (rid tid : Option String) (db : DB) :
    (createAuditEntry ctx u a rt rid tid db).journals = db.journals := by
  unfold createAuditEntry createAuditLog
  split <;> rfl

@[simp] theorem createAuditEntry_prompts (ctx : AuditCtx) (u a rt : String)
    (rid tid : Option String) (db : DB) :
    (createAuditEntry ctx u a rt rid tid db).prompts = db.prompts := by
  unfold createAuditEntry createAuditLog
  split <;> rfl

@[simp] theorem createAuditEntry_homework (ctx : AuditCtx) (u a rt : String)
    (rid tid : Option String) (db : DB) :
    (createAuditEntry ctx u a rt rid tid db).homework = db.homework := by
  unfold createAuditEntry createAuditLog
  split <;> rfl

@[simp] theorem createAuditEntry_plans (ctx : AuditCtx) (u a rt : String)
    (rid tid : Option String) (db : DB) :
    (createAuditEntry ctx u a rt rid tid db).plans = db.plans := by
  unfold createAuditEntry createAuditLog
  split <;> rfl

@[simp] theorem createAuditEntry_goals (ctx : AuditCtx) (u a rt : String)
    (rid tid : Option String) (db : DB) :
    (createAuditEntry ctx u a rt rid tid db).goals = db.goals := by
  unfold createAuditEntry createAuditLog
  split <;> rfl

@[simp] theorem createAuditEntry_objectives (ctx : AuditCtx) (u a rt : String)
    (rid tid : Option String) (db : DB) :
    (createAuditEntry ctx u a rt rid tid db).objectives = db.objectives := by
  unfold createAuditEntry createAuditLog
  split <;> rfl

@[simp] theorem createAuditEntry_progress (ctx : AuditCtx) (u a rt : String)
    (rid tid : Option String) (db : DB) :
    (createAuditEntry ctx u a rt rid tid db).progress = db.progress := by
  unfold createAuditEntry createAuditLog
  split <;> rfl

@[simp] theorem createAuditEntry_sessionActivity (ctx : AuditCtx)
    (u a rt : String) (rid tid : Option String) (db : DB) :
    (createAuditEntry ctx u a rt rid tid db).sessionActivity =
      db.sessionActivity := by
  unfold createAuditEntry createAuditLog
  split <;> rfl

theorem createAuditEntry_auditLogs_ok (ctx : AuditCtx) (u a rt : String)
    (rid tid : Option String) (db : DB) (h : ctx.writeOk = true) :
    (createAuditEntry ctx u a rt rid tid db).auditLogs =
      db.auditLogs ++ [mkAuditEntry ctx u a rt rid tid] := by
  unfold createAuditEntry createAuditLog
  simp [h]

@[simp] theorem createAuditEntry_fail (t : Int) (u a rt : String)
    (rid tid : Option String) (db : DB) :
    createAuditEntry ⟨t, false⟩ u a rt rid tid db = db := by
  unfold createAuditEntry
  simp

/-! ### Helper lemmas: session activity updates -/

@[simp] theorem updateSessionActivity_auditLogs (db : DB) (sid uid : String)
    (now : Int) :
    (updateSessionActivity db sid uid now).auditLogs = db.auditLogs := by
  unfold updateSessionActivity
  split <;> rfl

theorem find?_map_refresh (l : List SessionActivityRow) (sid : String)
    (now : Int) (a : SessionActivityRow)
    (h : l.find? (fun x => x.sessionId == sid) = some a) :
    (l.map (fun x =>
        if x.sessionId == sid then { x with lastActivity := now }
        else x)).find? (fun x => x.sessionId == sid) =
      some { a with lastActivity := now } := by
  induction l with
  | nil => simp at h
  | cons x xs ih =>
      by_cases hx : (x.sessionId == sid) = true
      · rw [List.find?_cons_of_pos xs hx] at h
        have hax : a = x := by
          injection h with h1
          exact h1.symm
        subst hax
        simp only [List.map_cons, if_pos hx]
        exact List.find?_cons_of_pos _ hx
      · rw [List.find?_cons_of_neg xs (by simp [hx])] at h
        simp only [List.map_cons, if_neg hx]
        rw [List.find?_cons_of_neg _ (by simp [hx])]
        exact ih h

theorem getSessionActivity_refresh (db : DB) (sid uid : String) (now : Int)
    (a : SessionActivityRow) (h : getSessionActivity db sid = some a) :
    getSessionActivity (updateSessionActivity db sid uid now) sid =
      some { a with lastActivity := now } := by
  unfold updateSessionActivity
  rw [h]
  unfold getSessionActivity at h ⊢
  exact find?_map_refresh db.sessionActivity sid now a h

/-! ### Helper lemmas: list membership facts -/

theorem find?_prop {α : Type} {p : α → Bool} {l : List α} {a : α}
    (h : l.find? p = some a) : p a = true :=
  List.find?_some h

theorem find?_mem {α : Type} {p : α → Bool} {l : List α} {a : α}
    (h : l.find? p = some a) : a ∈ l :=
  List.mem_of_find?_eq_some h

theorem sameExceptAudit_refl (db : DB) : sameExceptAudit db db := by
  simp [sameExceptAudit]

theorem sameExceptAudit_entry_left (c1 c2 : AuditCtx)
    (u1 a1 rt1 u2 a2 rt2 : String) (r1 t1 r2 t2 : Option String) (db : DB) :
    sameExceptAudit (createAuditEntry c1 u1 a1 rt1 r1 t1 db)
      (createAuditEntry c2 u2 a2 rt2 r2 t2 db) := by
  simp [sameExceptAudit]

theorem sameExceptAudit_entry_right (c : AuditCtx) (u a rt : String)
    (r tg : Option String) (db : DB) :
    sameExceptAudit db (createAuditEntry c u a rt r tg db) := by
  simp [sameExceptAudit]

/-! ### Claim theorems -/

/-- Claim C4: for every role string `r` and every required role,
`hasRolePermission r required` holds exactly when `rank r ≥ rank required`
with rank(therapist)=3, rank(office_admin)=2, rank(client)=1 and rank 0 for
any other string; `isOfficeAdminRole` holds exactly for office_admin and
therapist, and `isTherapistRole` only for therapist. -/
theorem C4_role_hierarchy (r : String) (required : UserRole) :
    (hasRolePermission r required = true ↔
      rankSpec required.toStr ≤ rankSpec r) ∧
    (isOfficeAdminRole r = true ↔ (r = "office_admin" ∨ r = "therapist")) ∧
    (isTherapistRole r = true ↔ r = "therapist") := by
  refine ⟨?_, ?_, ?_⟩
  · have hsrc : rankSpec r = roleLevel r := rfl
    have hreq : rankSpec required.toStr = required.level := by
      cases required <;> rfl
    simp [hasRolePermission, hsrc, hreq]
  · simp [isOfficeAdminRole]
  · simp [isTherapistRole]

/-- Claim C5 is refuted by the code: `getPrompts` ignores the client
argument the prompts route passes for a non-therapist, so the client `c1`
receives the active prompt scoped to the other client `c2`.  (The route's
own comment says clients see only their own or global prompts.) -/
theorem C5_scoped_prompt_leak :
    isTherapistRole (getUserRole sampleDB (some "c1")) = false ∧
    (promptsGet sampleDB (some "c1")).1 =
      .ok [⟨1, "global prompt", true, none⟩,
           ⟨2, "scoped to c2", true, some "c2"⟩] := by
  decide

/-- Claim C9 is refuted by the code: when no session-activity row exists for
the caller's session, the session-status handler answers with only `valid`
and `remainingMinutes` — the `timeoutMinutes` field (required by the
client's own `SessionStatus` interface) is absent, modelled here as
`timeoutMinutes = none`.  The second conjunct shows the branch with an
activity row does return all three fields. -/
theorem C9_session_status_missing_field :
    (sessionStatusGet sampleDB (some "c1") (some "s9") 0).1 =
      .ok { valid := true, remainingMinutes := 30, timeoutMinutes := none } ∧
    (sessionStatusGet sampleDB (some "c1") (some "s1") (10 * 60000)).1 =
      .ok { valid := true, remainingMinutes := 20,
            timeoutMinutes := some 30 } := by
  decide

/-- Claim C3: with last activity at `t0` and a 30-minute threshold, a
request at `t0 + 29min` proceeds, refreshes the session's last activity to
the request time and writes no audit entry; a request at `t0 + 31min` is
rejected as expired, leaves the activity rows untouched, and appends exactly
one `session_timeout` audit entry. -/
theorem C3_session_idle_timeout (ctx : AuditCtx) (db : DB) (sid uid : String)
    (a : SessionActivityRow) (t0 : Int)
    (hok : ctx.writeOk = true)
    (ha : getSessionActivity db sid = some a)
    (ht0 : a.lastActivity = t0) :
    ((sessionMiddleware ctx db (some uid) (some sid) (t0 + 29 * 60000)).1 =
        .proceed) ∧
    (getSessionActivity
        (sessionMiddleware ctx db (some uid) (some sid) (t0 + 29 * 60000)).2
        sid = some { a with lastActivity := t0 + 29 * 60000 }) ∧
    ((sessionMiddleware ctx db (some uid) (some sid)
        (t0 + 29 * 60000)).2.auditLogs = db.auditLogs) ∧
    ((sessionMiddleware ctx db (some uid) (some sid) (t0 + 31 * 60000)).1 =
        .expired) ∧
    ((sessionMiddleware ctx db (some uid) (some sid)
        (t0 + 31 * 60000)).2.sessionActivity = db.sessionActivity) ∧
    ((sessionMiddleware ctx db (some uid) (some sid)
        (t0 + 31 * 60000)).2.auditLogs =
      db.auditLogs ++
        [mkAuditEntry ctx uid "session_timeout" "session" (some sid) none]) :=
  by
  have h29 : pastTimeout a.lastActivity (t0 + 29 * 60000) = false := by
    simp only [pastTimeout, ht0, SESSION_TIMEOUT_MINUTES,
      decide_eq_false_iff_not, not_lt]
    omega
  have h31 : pastTimeout a.lastActivity (t0 + 31 * 60000) = true := by
    simp only [pastTimeout, ht0, SESSION_TIMEOUT_MINUTES, decide_eq_true_eq]
    omega
  norm_num at h29 h31
  have e29 : t0 + 29 * 60000 = t0 + 1740000 := by norm_num
  refine ⟨?_, ?_, ?_, ?_, ?_, ?_⟩
  · simp [sessionMiddleware, ha, h29]
  · simp only [sessionMiddleware, ha, e29, h29, Bool.false_eq_true, if_false]
    exact getSessionActivity_refresh db sid uid (t0 + 1740000) a ha
  · simp [sessionMiddleware, ha, h29]
  · simp [sessionMiddleware, ha, h31]
  · simp [sessionMiddleware, ha, h31]
  · simp [sessionMiddleware, ha, h31,
      createAuditEntry_auditLogs_ok _ _ _ _ _ _ _ hok]

/-- Witness for C3 at the sample store: session `s1` of `c1` last active at
time 0, requests at 29 and 31 minutes. -/
theorem C3_session_idle_timeout_witness :
    ((sessionMiddleware sampleCtx sampleDB (some "c1") (some "s1")
        ((0 : Int) + 29 * 60000)).1 = .proceed) ∧
    (getSessionActivity
        (sessionMiddleware sampleCtx sampleDB (some "c1") (some "s1")
          ((0 : Int) + 29 * 60000)).2 "s1" =
      some { sessionId := "s1", userId := "c1",
             lastActivity := (0 : Int) + 29 * 60000 }) ∧
    ((sessionMiddleware sampleCtx sampleDB (some "c1") (some "s1")
        ((0 : Int) + 29 * 60000)).2.auditLogs = sampleDB.auditLogs) ∧
    ((sessionMiddleware sampleCtx sampleDB (some "c1") (some "s1")
        ((0 : Int) + 31 * 60000)).1 = .expired) ∧
    ((sessionMiddleware sampleCtx sampleDB (some "c1") (some "s1")
        ((0 : Int) + 31 * 60000)).2.sessionActivity =
      sampleDB.sessionActivity) ∧
    ((sessionMiddleware sampleCtx sampleDB (some "c1") (some "s1")
        ((0 : Int) + 31 * 60000)).2.auditLogs =
      sampleDB.auditLogs ++
        [mkAuditEntry sampleCtx "c1" "session_timeout" "session" (some "s1")
          none]) :=
  C3_session_idle_timeout sampleCtx sampleDB "s1" "c1" ⟨"s1", "c1", 0⟩ 0
    (by decide) (by decide) rfl

/-- Claim C6: homework creation and deletion are refused for a caller below
office admin, while the homework status update (PATCH) runs for any
authenticated caller with no ownership check — here the caller updates a
row owned by a different user. -/
theorem C6_homework_authorization (db : DB) (uid : String) (hw : Homework)
    (upd : HomeworkUpdate) (ins : InsertHomework)
    (hrole : isOfficeAdminRole (getUserRole db (some uid)) = false)
    (hfind : db.homework.find? (fun h => h.id == hw.id) = some hw)
    (_howner : hw.userId ≠ uid) :
    ((homeworkPost db (some uid) ins).1 =
        .forbidden "Admin access required") ∧
    ((homeworkDelete db (some uid) hw.id).1 =
        .forbidden "Admin access required") ∧
    ((homeworkPatch db (some uid) hw.id upd).1 =
        .ok (some (applyHomeworkUpdate upd hw))) ∧
    ((homeworkPatch db (some uid) hw.id upd).2.homework =
      db.homework.map (fun h =>
        if h.id == hw.id then applyHomeworkUpdate upd h else h)) := by
  refine ⟨?_, ?_, ?_, ?_⟩
  · simp [homeworkPost, hrole]
  · simp [homeworkDelete, hrole]
  · simp [homeworkPatch, updateHomework, hfind]
  · simp [homeworkPatch, updateHomework]

/-- Witness for C6 at the sample store: the client `c1` cannot create or
delete homework but successfully marks `c2`'s homework row completed. -/
theorem C6_homework_authorization_witness :
    ((homeworkPost sampleDB (some "c1") ⟨"c1", "x", none⟩).1 =
        .forbidden "Admin access required") ∧
    ((homeworkDelete sampleDB (some "c1") (1 : Nat)).1 =
        .forbidden "Admin access required") ∧
    ((homeworkPatch sampleDB (some "c1") (1 : Nat)
        ⟨none, none, some "completed"⟩).1 =
      .ok (some (applyHomeworkUpdate ⟨none, none, some "completed"⟩
        ⟨1, "c2", "task", "pending"⟩))) ∧
    ((homeworkPatch sampleDB (some "c1") (1 : Nat)
        ⟨none, none, some "completed"⟩).2.homework =
      sampleDB.homework.map (fun h =>
        if h.id == (1 : Nat) then
          applyHomeworkUpdate ⟨none, none, some "completed"⟩ h
        else h)) :=
  C6_homework_authorization sampleDB "c1" ⟨1, "c2", "task", "pending"⟩
    ⟨none, none, some "completed"⟩ ⟨"c1", "x", none⟩
    (by decide) (by decide) (by decide)

/-- Claim C8: the therapist-facing client-journal read is refused for every
authenticated non-therapist, and any list it does return contains only
journals of the named client that are flagged shared. -/
theorem C8_shared_journals_only (ctx : AuditCtx) (db : DB)
    (clientId : String) :
    (∀ uid : String, isTherapistRole (getUserRole db (some uid)) = false →
      (journalsClientGet ctx db (some uid) clientId).1 =
        .forbidden "Therapist access required") ∧
    (∀ (auth : Option String) (js : List Journal),
      (journalsClientGet ctx db auth clientId).1 = .ok js →
      ∀ j ∈ js, j.isShared = true ∧ j.userId = clientId) := by
  constructor
  · intro uid hrole
    simp [journalsClientGet, hrole]
  · intro auth js hok j hj
    match auth with
    | none => simp [journalsClientGet] at hok
    | some uid =>
        by_cases hrole : isTherapistRole (getUserRole db (some uid)) = true
        · simp only [journalsClientGet, hrole, Bool.not_true,
            Bool.false_eq_true, if_false] at hok
          injection hok with hok1
          subst hok1
          simp only [getSharedJournals, createAuditEntry_journals,
            List.mem_filter, Bool.and_eq_true, beq_iff_eq] at hj
          exact ⟨hj.2.2, hj.2.1⟩
        · rw [Bool.not_eq_true] at hrole
          simp [journalsClientGet, hrole] at hok

/-- Witness for C8 at the sample store: the client `c2` is refused, and the
list the therapist receives for `c1` — exactly the one shared entry — is
all shared and all owned by `c1`. -/
theorem C8_shared_journals_only_witness :
    ((journalsClientGet sampleCtx sampleDB (some "c2") "c1").1 =
        .forbidden "Therapist access required") ∧
    (∀ j ∈ [(⟨1, "c1", "shared entry", true⟩ : Journal)],
      j.isShared = true ∧ j.userId = "c1") :=
  ⟨(C8_shared_journals_only sampleCtx sampleDB "c1").1 "c2" (by decide),
   (C8_shared_journals_only sampleCtx sampleDB "c1").2 (some "t1")
     [⟨1, "c1", "shared entry", true⟩] (by decide)⟩

/-- Claim C1: a non-therapist caller `cOther` asking for another client's
treatment plan, goals, or objectives is denied with `Access denied` — for
every target id, whether or not it resolves in the store; conversely the
objectives of a goal `G` of the plan `P` owned by the non-therapist `cOwner`
are returned both to `cOwner` (via the goal-membership scan over that own
plan) and to any therapist. -/
theorem C1_ownership_chain (ctx : AuditCtx) (db : DB)
    (cOwner cOther tTher : String) (P : TreatmentPlan) (G : TreatmentGoal)
    (hOwnerRole : isTherapistRole (getUserRole db (some cOwner)) = false)
    (hOtherRole : isTherapistRole (getUserRole db (some cOther)) = false)
    (hTherRole : isTherapistRole (getUserRole db (some tTher)) = true)
    (hPlan : db.plans.find? (fun p => p.clientId == cOwner) = some P)
    (hGoal : G ∈ db.goals) (hGoalPlan : G.planId = P.id) :
    ((treatmentObjectivesGet ctx db (some cOwner) G.id).1 =
        .ok (getObjectives db G.id)) ∧
    ((treatmentObjectivesGet ctx db (some tTher) G.id).1 =
        .ok (getObjectives db G.id)) ∧
    (∀ goalId : Nat,
      (∀ g ∈ db.goals, g.id = goalId →
        ∀ p ∈ db.plans, p.id = g.planId → p.clientId ≠ cOther) →
      (treatmentObjectivesGet ctx db (some cOther) goalId).1 =
        .forbidden "Access denied") ∧
    (∀ clientId : String, clientId ≠ cOther →
      (treatmentPlanByClient ctx db (some cOther) clientId).1 =
        .forbidden "Access denied") ∧
    (∀ planId : Nat,
      (∀ p ∈ db.plans, p.id = planId → p.clientId ≠ cOther) →
      (treatmentGoalsGet ctx db (some cOther) planId).1 =
        .forbidden "Access denied") := by
  refine ⟨?_, ?_, ?_, ?_, ?_⟩
  · -- the owner reaches the objectives through their own plan's goal list
    have hGmem : G ∈ getGoals db P.id := by
      simp only [getGoals, List.mem_filter, hGoalPlan, beq_self_eq_true,
        and_true]
      exact hGoal
    have hany : (getGoals db P.id).any (fun g => g.id == G.id) = true := by
      rw [List.any_eq_true]
      exact ⟨G, hGmem, by simp⟩
    simp [treatmentObjectivesGet, hOwnerRole, getAllTreatmentPlans, hPlan,
      hany]
  · -- a therapist is never blocked; the audit write leaves objectives alone
    simp only [treatmentObjectivesGet, hTherRole, Bool.not_true,
      Bool.false_eq_true, if_false]
    cases hf : db.plans.find? (fun p =>
        (getGoals db p.id).any (fun g => g.id == G.id)) with
    | none => simp [getAllTreatmentPlans, hf]
    | some p =>
        simp [getAllTreatmentPlans, hf, getObjectives]
  · -- no goal chain from `cOther` can reach a foreign goal id
    intro goalId hforeign
    simp only [treatmentObjectivesGet, hOtherRole, Bool.not_false, if_true]
    cases hf : (getAllTreatmentPlans db).find? (fun p =>
        p.clientId == cOther) with
    | none => simp [hf]
    | some clientPlan =>
        have hmem : clientPlan ∈ db.plans := find?_mem hf
        have hcp : clientPlan.clientId = cOther := by
          have := find?_prop hf
          simpa using this
        have hany : (getGoals db clientPlan.id).any
            (fun g => g.id == goalId) = false := by
          rw [Bool.eq_false_iff]
          intro hcontra
          rw [List.any_eq_true] at hcontra
          obtain ⟨g, hgmem, hgid⟩ := hcontra
          rw [beq_iff_eq] at hgid
          rw [getGoals, List.mem_filter] at hgmem
          obtain ⟨hgdb, hgplan⟩ := hgmem
          rw [beq_iff_eq] at hgplan
          exact hforeign g hgdb hgid clientPlan hmem hgplan.symm hcp
        simp [hf, hany]
  · -- a foreign plan read by client id is rejected before any lookup
    intro clientId hne
    have hne2 : cOther ≠ clientId := Ne.symm hne
    simp [treatmentPlanByClient, hOtherRole, hne2]
  · -- goals of a plan not owned by `cOther` (or of no plan at all)
    intro planId hforeign
    have haccess : verifyPlanAccess db (some cOther) planId = false := by
      simp only [verifyPlanAccess, hOtherRole, Bool.false_eq_true, if_false]
      cases hf : (getAllTreatmentPlans db).find? (fun p =>
          p.id == planId) with
      | none => simp
      | some plan =>
          have hmem : plan ∈ db.plans := find?_mem hf
          have hpid : plan.id = planId := by
            have hp := find?_prop hf
            simpa using hp
          have hno := hforeign plan hmem hpid
          refine beq_eq_false_iff_ne.mpr ?_
          intro hcc
          exact hno (Option.some.inj hcc).symm
    simp [treatmentGoalsGet, haccess]

/-- Witness for C1 at the sample store: goal 10 sits in plan 1 owned by
`c1`; client `c2` is denied objectives of goal 10, the plan of `c1`, and
goals of plan 1, while `c1` and the therapist `t1` both receive objective
100. -/
theorem C1_ownership_chain_witness :
    ((treatmentObjectivesGet sampleCtx sampleDB (some "c1") (10 : Nat)).1 =
        .ok (getObjectives sampleDB 10)) ∧
    ((treatmentObjectivesGet sampleCtx sampleDB (some "t1") (10 : Nat)).1 =
        .ok (getObjectives sampleDB 10)) ∧
    ((treatmentObjectivesGet sampleCtx sampleDB (some "c2") (10 : Nat)).1 =
        .forbidden "Access denied") ∧
    ((treatmentPlanByClient sampleCtx sampleDB (some "c2") "c1").1 =
        .forbidden "Access denied") ∧
    ((treatmentGoalsGet sampleCtx sampleDB (some "c2") (1 : Nat)).1 =
        .forbidden "Access denied") := by
  have h := C1_ownership_chain sampleCtx sampleDB "c1" "c2" "t1"
    ⟨1, "c1"⟩ ⟨10, 1, "goal of c1"⟩
    (by decide) (by decide) (by decide) (by decide) (by decide) rfl
  exact ⟨h.1, h.2.1, h.2.2.1 10 (by decide), h.2.2.2.1 "c1" (by decide),
    h.2.2.2.2 1 (by decide)⟩

/-- Claim C2 as stated fails on the list-all treatment-plans read: the
therapist `t1` receives client `c1`'s plan in the response, yet the single
audit entry written has action `view_all` and a null `targetUserId` — no new
entry carries `c1`'s id. -/
theorem C2_list_all_counterexample :
    ((treatmentPlansList sampleCtx sampleDB (some "t1")).1 =
        .ok [⟨1, "c1"⟩, ⟨2, "c2"⟩]) ∧
    ((treatmentPlansList sampleCtx sampleDB (some "t1")).2.auditLogs =
      [⟨"t1", "view_all", "treatment_plan", none, none, 7⟩]) ∧
    (∀ l ∈ (treatmentPlansList sampleCtx sampleDB (some "t1")).2.auditLogs,
      l.targetUserId ≠ some "c1") := by
  decide

/-- Claim C2 (amended): each therapist read of a *specific* client's data —
plan by client id (when the therapist is not that client), goals of an
existing plan, objectives of an owned goal, progress of an owned objective —
appends exactly one audit entry whose `targetUserId` is the client's id,
while the list-all treatment-plans read appends exactly one entry with
action `view_all` and no target user. -/
theorem C2_therapist_read_audit (ctx : AuditCtx) (db : DB) (tTher c : String)
    (P : TreatmentPlan) (G : TreatmentGoal) (O : TreatmentObjective)
    (hok : ctx.writeOk = true)
    (hTher : isTherapistRole (getUserRole db (some tTher)) = true) :
    ((treatmentPlansList ctx db (some tTher)).2.auditLogs =
      db.auditLogs ++
        [mkAuditEntry ctx tTher "view_all" "treatment_plan" none none]) ∧
    ((mkAuditEntry ctx tTher "view_all" "treatment_plan" none
        none).targetUserId = none) ∧
    (tTher ≠ c →
      (treatmentPlanByClient ctx db (some tTher) c).2.auditLogs =
        db.auditLogs ++
          [mkAuditEntry ctx tTher "view" "treatment_plan" none (some c)]) ∧
    (c ≠ "" →
      (mkAuditEntry ctx tTher "view" "treatment_plan" none
        (some c)).targetUserId = some c) ∧
    (db.plans.find? (fun p => p.id == P.id) = some P →
      (treatmentGoalsGet ctx db (some tTher) P.id).2.auditLogs =
        db.auditLogs ++
          [mkAuditEntry ctx tTher "view" "treatment_goals"
            (some (toString P.id)) (some P.clientId)]) ∧
    (db.plans.find? (fun p =>
        (getGoals db p.id).any (fun g => g.id == G.id)) = some P →
      (treatmentObjectivesGet ctx db (some tTher) G.id).2.auditLogs =
        db.auditLogs ++
          [mkAuditEntry ctx tTher "view" "treatment_objectives"
            (some (toString G.id)) (some P.clientId)]) ∧
    (deriveProgressClient db O.id db.plans = some P.clientId →
      (treatmentProgressGet ctx db (some tTher) O.id).2.auditLogs =
        db.auditLogs ++
          [mkAuditEntry ctx tTher "view" "treatment_progress"
            (some (toString O.id)) (some P.clientId)]) ∧
    (P.clientId ≠ "" →
      (mkAuditEntry ctx tTher "view" "treatment_goals"
        (some (toString P.id)) (some P.clientId)).targetUserId =
        some P.clientId) := by
  have hlog : ∀ (u a rt : String) (rid tid : Option String),
      (createAuditEntry ctx u a rt rid tid db).auditLogs =
        db.auditLogs ++ [mkAuditEntry ctx u a rt rid tid] :=
    fun u a rt rid tid => createAuditEntry_auditLogs_ok ctx u a rt rid tid db
      hok
  refine ⟨?_, ?_, ?_, ?_, ?_, ?_, ?_, ?_⟩
  · simp [treatmentPlansList, hTher, hlog]
  · simp [mkAuditEntry, orNull]
  · intro hne
    simp [treatmentPlanByClient, hTher, hne, hlog]
  · intro hc
    simp [mkAuditEntry, orNull, hc]
  · intro hfind
    have haccess : verifyPlanAccess db (some tTher) P.id = true := by
      simp [verifyPlanAccess, hTher]
    simp [treatmentGoalsGet, haccess, getAllTreatmentPlans, hfind, hTher,
      hlog]
  · intro hfind
    simp [treatmentObjectivesGet, hTher, getAllTreatmentPlans, hfind, hlog]
  · intro hder
    simp [treatmentProgressGet, hTher, getAllTreatmentPlans, hder, hlog]
  · intro hc
    simp [mkAuditEntry, orNull, hc]

/-- Witness for the amended C2 at the sample store, with therapist `t1`,
client `c1`, plan 1, goal 10 and objective 100. -/
theorem C2_therapist_read_audit_witness :
    ((treatmentPlansList sampleCtx sampleDB (some "t1")).2.auditLogs =
      sampleDB.auditLogs ++
        [mkAuditEntry sampleCtx "t1" "view_all" "treatment_plan" none
          none]) ∧
    ((treatmentPlanByClient sampleCtx sampleDB (some "t1") "c1").2.auditLogs
        = sampleDB.auditLogs ++
          [mkAuditEntry sampleCtx "t1" "view" "treatment_plan" none
            (some "c1")]) ∧
    ((mkAuditEntry sampleCtx "t1" "view" "treatment_plan" none
        (some "c1")).targetUserId = some "c1") ∧
    ((treatmentGoalsGet sampleCtx sampleDB (some "t1") (1 : Nat)).2.auditLogs
        = sampleDB.auditLogs ++
          [mkAuditEntry sampleCtx "t1" "view" "treatment_goals"
            (some (toString (1 : Nat))) (some "c1")]) ∧
    ((treatmentObjectivesGet sampleCtx sampleDB (some "t1")
        (10 : Nat)).2.auditLogs =
      sampleDB.auditLogs ++
        [mkAuditEntry sampleCtx "t1" "view" "treatment_objectives"
          (some (toString (10 : Nat))) (some "c1")]) ∧
    ((treatmentProgressGet sampleCtx sampleDB (some "t1")
        (100 : Nat)).2.auditLogs =
      sampleDB.auditLogs ++
        [mkAuditEntry sampleCtx "t1" "view" "treatment_progress"
          (some (toString (100 : Nat))) (some "c1")]) := by
  have h := C2_therapist_read_audit sampleCtx sampleDB "t1" "c1"
    ⟨1, "c1"⟩ ⟨10, 1, "goal of c1"⟩ ⟨100, 10, "objective of c1"⟩
    (by decide) (by decide)
  exact ⟨h.1, h.2.2.1 (by decide), h.2.2.2.1 (by decide),
    h.2.2.2.2.1 (by decide), h.2.2.2.2.2.1 (by decide),
    h.2.2.2.2.2.2.1 (by decide)⟩

/-- Claim C10: `getAuditLogs` with a (nonempty) user-id argument selects
exactly the entries whose *actor* `userId` equals it (further filtered by
`startDate` when given) and puts no condition on `targetUserId`; only
`getClientDataAccessLogs` filters on `targetUserId`; and the audit-log route
passes its `targetUserId` query parameter as precisely that actor filter. -/
theorem C10_audit_filter_by_actor (ctx : AuditCtx) (db : DB) (uid q : String)
    (s : Option Int) (hq : q ≠ "") :
    (∀ l : AuditLog, l ∈ getAuditLogs db (some q) s ↔
      (l ∈ db.auditLogs ∧ l.userId = q ∧
        ∀ d : Int, s = some d → d ≤ l.createdAt)) ∧
    (∀ (c : String) (l : AuditLog), l ∈ getClientDataAccessLogs db c ↔
      (l ∈ db.auditLogs ∧ l.targetUserId = some c)) ∧
    (isTherapistRole (getUserRole db (some uid)) = true →
      (auditLogsGet ctx db (some uid) (some q) s).1 =
        .ok (getAuditLogs
          (createAuditEntry ctx uid "view" "audit_logs" none (some q) db)
          (some q) s)) := by
  refine ⟨?_, ?_, ?_⟩
  · intro l
    cases s with
    | none =>
        simp [getAuditLogs, strTruthy, hq, List.mem_filter]
    | some d =>
        simp only [getAuditLogs, strTruthy, if_neg hq, List.mem_filter,
          Bool.and_eq_true, beq_iff_eq, decide_eq_true_eq,
          Option.some.injEq, forall_eq']
  · intro c l
    simp [getClientDataAccessLogs, List.mem_filter]
  · intro hTher
    simp [auditLogsGet, hTher]

/-- Witness for C10 at the sample store with one seeded entry: the entry
`t1 viewed c1's journal` is selected when filtering by actor `t1`, is not
selected when filtering by actor `c1` even though `c1` is its target, and
is the sole result of `getClientDataAccessLogs` for `c1`; the route passes
the query through as the actor filter. -/
theorem C10_audit_filter_by_actor_witness :
    ((⟨"t1", "view", "journal", none, some "c1", 1⟩ : AuditLog) ∈
      getAuditLogs
        { sampleDB with
            auditLogs := [⟨"t1", "view", "journal", none, some "c1", 1⟩] }
        (some "t1") none) ∧
    (¬ (⟨"t1", "view", "journal", none, some "c1", 1⟩ : AuditLog) ∈
      getAuditLogs
        { sampleDB with
            auditLogs := [⟨"t1", "view", "journal", none, some "c1", 1⟩] }
        (some "c1") none) ∧
    ((⟨"t1", "view", "journal", none, some "c1", 1⟩ : AuditLog) ∈
      getClientDataAccessLogs
        { sampleDB with
            auditLogs := [⟨"t1", "view", "journal", none, some "c1", 1⟩] }
        "c1") ∧
    ((auditLogsGet sampleCtx
        { sampleDB with
            auditLogs := [⟨"t1", "view", "journal", none, some "c1", 1⟩] }
        (some "t1") (some "c1") none).1 =
      .ok (getAuditLogs
        (createAuditEntry sampleCtx "t1" "view" "audit_logs" none
          (some "c1")
          { sampleDB with
              auditLogs := [⟨"t1", "view", "journal", none, some "c1", 1⟩] })
        (some "c1") none)) := by
  have h1 := C10_audit_filter_by_actor sampleCtx
    { sampleDB with
        auditLogs := [⟨"t1", "view", "journal", none, some "c1", 1⟩] }
    "t1" "t1" none (by decide)
  have h2 := C10_audit_filter_by_actor sampleCtx
    { sampleDB with
        auditLogs := [⟨"t1", "view", "journal", none, some "c1", 1⟩] }
    "t1" "c1" none (by decide)
  refine ⟨?_, ?_, ?_, ?_⟩
  · exact (h1.1 ⟨"t1", "view", "journal", none, some "c1", 1⟩).mpr
      ⟨by decide, rfl, by simp⟩
  · intro hmem
    have hcontra := (h2.1 ⟨"t1", "view", "journal", none, some "c1", 1⟩).mp
      hmem
    exact absurd hcontra.2.1 (by decide)
  · exact (h1.2.1 "c1" ⟨"t1", "view", "journal", none, some "c1", 1⟩).mpr
      ⟨by decide, rfl⟩
  · exact h2.2.2 (by decide)

/-- Claim C7 as stated fails on the audit-log listing route: that route
writes its own `view audit_logs` entry *before* querying, so when the
therapist filters by their own id the response of the run whose audit write
succeeds contains the fresh entry while the failing run's does not — the
responses differ. -/
theorem C7_failed_audit_changes_audit_read :
    (auditLogsGet ⟨7, true⟩ sampleDB (some "t1") (some "t1") none).1 ≠
      (auditLogsGet ⟨7, false⟩ sampleDB (some "t1") (some "t1") none).1 := by
  decide

/-- Claim C7 (amended): an audit-write failure is swallowed — it never
surfaces an error, never touches any table other than `audit_logs`, and
every audited operation except the audit-log listing itself returns exactly
the response of the no-failure run; the audit-log listing still succeeds
with the pre-request audit table (its response can omit only the entry the
failed write would have added). -/
theorem C7_audit_failure_contained (db : DB) (auth : Option String) :
    (∀ clientId : String,
      auditFailSafe db (fun ctx => journalsClientGet ctx db auth clientId)) ∧
    auditFailSafe db (fun ctx => treatmentPlansList ctx db auth) ∧
    (∀ clientId : String,
      auditFailSafe db
        (fun ctx => treatmentPlanByClient ctx db auth clientId)) ∧
    (∀ planId : Nat,
      auditFailSafe db (fun ctx => treatmentGoalsGet ctx db auth planId)) ∧
    (∀ goalId : Nat,
      auditFailSafe db
        (fun ctx => treatmentObjectivesGet ctx db auth goalId)) ∧
    (∀ objectiveId : Nat,
      auditFailSafe db
        (fun ctx => treatmentProgressGet ctx db auth objectiveId)) ∧
    (∀ (sid : Option String) (now : Int),
      auditFailSafe db (fun ctx => sessionMiddleware ctx db auth sid now)) ∧
    (∀ (q : Option String) (s : Option Int) (t : Int),
      sameExceptAudit (auditLogsGet ⟨t, false⟩ db auth q s).2
          (auditLogsGet ⟨t, true⟩ db auth q s).2 ∧
      (auditLogsGet ⟨t, false⟩ db auth q s).2.auditLogs = db.auditLogs ∧
      (auditLogsGet ⟨t, false⟩ db auth q s).1 =
        (match auth with
         | none => ApiResponse.unauthorized
         | some _ =>
             if isTherapistRole (getUserRole db auth) then
               .ok (getAuditLogs db q s)
             else .forbidden "Therapist access required")) := by
  refine ⟨?_, ?_, ?_, ?_, ?_, ?_, ?_, ?_⟩
  · intro clientId t
    cases auth with
    | none => exact ⟨rfl, sameExceptAudit_refl db, rfl⟩
    | some uid =>
        cases hr : isTherapistRole (getUserRole db (some uid)) with
        | false => simp [journalsClientGet, hr, sameExceptAudit]
        | true => simp [journalsClientGet, hr, sameExceptAudit,
            getSharedJournals]
  · intro t
    cases auth with
    | none => exact ⟨rfl, sameExceptAudit_refl db, rfl⟩
    | some uid =>
        cases hr : isTherapistRole (getUserRole db (some uid)) with
        | true => simp [treatmentPlansList, hr, sameExceptAudit,
            getAllTreatmentPlans]
        | false =>
            have hgtp : ∀ c : AuditCtx,
                getTreatmentPlan (createAuditEntry c uid "view"
                  "treatment_plan" none (some uid) db) uid =
                getTreatmentPlan db uid := by
              intro c
              simp [getTreatmentPlan]
            cases hfp : getTreatmentPlan db uid with
            | none => simp [treatmentPlansList, hr, hgtp, hfp,
                sameExceptAudit]
            | some plan => simp [treatmentPlansList, hr, hgtp, hfp,
                sameExceptAudit]
  · intro clientId t
    cases auth with
    | none => exact ⟨rfl, sameExceptAudit_refl db, rfl⟩
    | some uid =>
        cases hr : isTherapistRole (getUserRole db (some uid)) with
        | false =>
            by_cases heq : uid = clientId
            · simp [treatmentPlanByClient, hr, heq, sameExceptAudit,
                getTreatmentPlan]
            · simp [treatmentPlanByClient, hr, heq, sameExceptAudit]
        | true =>
            by_cases heq : uid = clientId
            · simp [treatmentPlanByClient, hr, heq, sameExceptAudit,
                getTreatmentPlan]
            · simp [treatmentPlanByClient, hr, heq, sameExceptAudit,
                getTreatmentPlan]
  · intro planId t
    cases auth with
    | none => exact ⟨rfl, sameExceptAudit_refl db, rfl⟩
    | some uid =>
        cases hv : verifyPlanAccess db (some uid) planId with
        | false => simp [treatmentGoalsGet, hv, sameExceptAudit]
        | true =>
            cases hfp : db.plans.find? (fun p => p.id == planId) with
            | none => simp [treatmentGoalsGet, hv, getAllTreatmentPlans,
                hfp, sameExceptAudit]
            | some plan =>
                cases hr : isTherapistRole (getUserRole db (some uid)) with
                | false => simp [treatmentGoalsGet, hv, hr,
                    getAllTreatmentPlans, hfp, sameExceptAudit]
                | true => simp [treatmentGoalsGet, hv, hr,
                    getAllTreatmentPlans, hfp, sameExceptAudit, getGoals]
  · intro goalId t
    cases auth with
    | none => exact ⟨rfl, sameExceptAudit_refl db, rfl⟩
    | some uid =>
        cases hr : isTherapistRole (getUserRole db (some uid)) with
        | false =>
            cases hfp : db.plans.find? (fun p => p.clientId == uid) with
            | none => simp [treatmentObjectivesGet, hr,
                getAllTreatmentPlans, hfp, sameExceptAudit]
            | some clientPlan =>
                cases hany : (getGoals db clientPlan.id).any
                    (fun g => g.id == goalId) with
                | false => simp [treatmentObjectivesGet, hr,
                    getAllTreatmentPlans, hfp, hany, sameExceptAudit]
                | true => simp [treatmentObjectivesGet, hr,
                    getAllTreatmentPlans, hfp, hany, sameExceptAudit]
        | true =>
            cases hfp : db.plans.find? (fun p =>
                (getGoals db p.id).any (fun g => g.id == goalId)) with
            | none => simp [treatmentObjectivesGet, hr,
                getAllTreatmentPlans, hfp, sameExceptAudit]
            | some p => simp [treatmentObjectivesGet, hr,
                getAllTreatmentPlans, hfp, sameExceptAudit, getObjectives]
  · intro objectiveId t
    cases auth with
    | none => exact ⟨rfl, sameExceptAudit_refl db, rfl⟩
    | some uid =>
        cases hr : isTherapistRole (getUserRole db (some uid)) with
        | false => simp [treatmentProgressGet, hr, sameExceptAudit]
        | true => simp [treatmentProgressGet, hr, sameExceptAudit,
            getProgress]
  · intro sid now t
    cases auth with
    | none => exact ⟨rfl, sameExceptAudit_refl db, rfl⟩
    | some uid =>
        cases sid with
        | none => exact ⟨rfl, sameExceptAudit_refl db, rfl⟩
        | some s =>
            cases hact : getSessionActivity db s with
            | none => simp [sessionMiddleware, hact, sameExceptAudit]
            | some a =>
                cases hpt : pastTimeout a.lastActivity now with
                | false => simp [sessionMiddleware, hact, hpt,
                    sameExceptAudit]
                | true => simp [sessionMiddleware, hact, hpt,
                    sameExceptAudit]
  · intro q s t
    cases auth with
    | none => exact ⟨sameExceptAudit_refl db, rfl, rfl⟩
    | some uid =>
        cases hr : isTherapistRole (getUserRole db (some uid)) with
        | false => simp [auditLogsGet, hr, sameExceptAudit]
        | true => simp [auditLogsGet, hr, sameExceptAudit, getAuditLogs]

end HealConnect
